import Mathlib

/-!
# FinEasy service worker (`src/web/sw.js`): cache selection and fallback logic

A shallow embedding of the service worker's lifecycle handlers (`install`,
`activate`, `fetch`) and of its two strategies (`cacheFirstStrategy`,
`networkFirstStrategy`), followed by theorems about them.

Modelling conventions.

* A request is the record of the attributes the worker and the host cache
  read: its URL (`origin`, `pathname`, `search`; the fragment plays no part in
  cache matching and is left out), its `method`, its `mode` and its headers
  (names normalised, one value per name).
* A response is its status, its body and the field names of its `Vary` header;
  `response.ok` is the host attribute: the status lies in 200..299.
* The host cache storage is an ordered list of named partitions (creation
  order, as `caches.keys()` reports it); a partition is the host's list of
  `(Request, Response)` pairs.  `cache.match` answers only a `GET` query and
  compares the URL and the headers named by the stored response's `Vary`.
  `cache.put` rejects a request whose method is not `GET`, a response with
  status 206 and a response whose `Vary` contains `*`; a rejected write stores
  nothing.  The worker is served from an http(s) origin, so the scheme test of
  `cache.put` passes for every same-origin request and is not modelled.
  `caches.open(name)` creates an empty partition when the name is absent.
* The network is an oracle `fetch : Request → Except JsError Response`;
  `Except.error e` stands for a rejected promise carrying `e`.
* A settled promise of a response is `Except JsError (Option Response)`, where
  `none` is the JavaScript value `undefined` (a cache miss).
* `cache.put(...)` is not awaited by the source; the embedding applies the write
  at the point of the call, so a state returned by a handler is the state once
  the pending writes have settled.  A write the host rejects is an unhandled
  rejection: the strategy still returns its response.
* Every handler returns a `Run`: its value, the cache storage afterwards and the
  trace of observable effects (network calls, strategy invocations, lifecycle
  calls).  Console output is not modelled.
-/

namespace Fineasy

/-! ## Constants (sw.js lines 4-17) -/

def CACHE_NAME : String := "fineasy-v1"

def RUNTIME_CACHE : String := "fineasy-runtime-v1"

def DATA_CACHE : String := "fineasy-data-v1"

def PRECACHE_ASSETS : List String :=
  ["/", "/index.html", "/manifest.json", "/favicon.png",
   "/icons/Icon-192.png", "/icons/Icon-512.png", "/offline.html"]

/-! ## Host data: URLs, requests, responses, errors -/

/-- The parts of `new URL(request.url)` that the worker and the cache look at. -/
structure URL where
  origin : String
  pathname : String
  search : String
  deriving DecidableEq, Repr

/-- A request: its URL, its method, its `mode` (`'navigate'`, `'cors'`,
`'no-cors'`, ...) and its headers. -/
structure Request where
  url : URL
  method : String
  mode : String
  headers : List (String × String)
  deriving DecidableEq, Repr

/-- A response: status code, body and the field names listed by its `Vary`
header (empty when it has none). -/
structure Response where
  status : Nat
  body : String
  vary : List String
  deriving DecidableEq, Repr

/-- The host attribute `response.ok`: true exactly for a status in 200..299. -/
def Response.ok (r : Response) : Bool :=
  decide (200 ≤ r.status) && decide (r.status ≤ 299)

/-- A JavaScript error value (what a rejected promise carries). -/
structure JsError where
  message : String
  deriving DecidableEq, Repr

/-- A settled promise of a response: rejected, or resolved with a response or
with `undefined` (`none`). -/
abbrev Settled := Except JsError (Option Response)

/-! ## `String.prototype.includes` -/

/-- Does the character list start with the pattern? -/
def startsWithChars : List Char → List Char → Bool
  | _, [] => true
  | [], _ :: _ => false
  | c :: cs, p :: ps => (c == p) && startsWithChars cs ps

/-- Does the pattern occur as a contiguous run of the character list? -/
def includesChars : List Char → List Char → Bool
  | [], pat => startsWithChars [] pat
  | c :: cs, pat => startsWithChars (c :: cs) pat || includesChars cs pat

/-- The JavaScript `s.includes(pat)`. -/
def includes (s pat : String) : Bool :=
  includesChars s.toList pat.toList

/-! ## Host cache storage -/

/-- One cache partition: the host's request-response list. -/
abbrev Cache := List (Request × Response)

/-- All partitions, by name, in creation order. -/
abbrev CacheStorage := List (String × Cache)

/-- The value of a request header, if the request carries it. -/
def headerValue : List (String × String) → String → Option String
  | [], _ => none
  | (n, v) :: rest, name => if n = name then some v else headerValue rest name

/-- The host test "request matches cached item" with default options: the
stored request is a `GET`, the URLs are equal, and for every field name of the
stored response's `Vary` the two requests carry the same value (a `*` never
matches). -/
def requestMatches (query cached : Request) (response : Response) : Bool :=
  decide (cached.method = "GET") && decide (cached.url = query.url) &&
    response.vary.all (fun name =>
      decide (name ≠ "*") &&
        decide (headerValue cached.headers name = headerValue query.headers name))

/-- The first stored response whose pair matches the query. -/
def firstMatch : Cache → Request → Option Response
  | [], _ => none
  | (k, r) :: rest, query =>
    if requestMatches query k r then some r else firstMatch rest query

/-- The host `cache.match(request)`: `undefined` for a query that is not a
`GET`, the first matching stored response otherwise. -/
def cacheMatch (c : Cache) (query : Request) : Option Response :=
  if query.method = "GET" then firstMatch c query else none

/-- Does the host `cache.put(request, response)` accept the pair?  It rejects
a request whose method is not `GET`, a response with status 206 and a response
whose `Vary` contains `*`. -/
def putAccepted (request : Request) (response : Response) : Bool :=
  decide (request.method = "GET") && decide (response.status ≠ 206) &&
    decide ("*" ∉ response.vary)

/-- The host `cache.put(request, response)`: an accepted pair replaces the
pairs matching the request; a rejected one leaves the partition as it was. -/
def cachePut (c : Cache) (request : Request) (r : Response) : Cache :=
  if putAccepted request r then
    c.filter (fun e => !requestMatches request e.1 e.2) ++ [(request, r)]
  else c

/-- The host `caches.keys()`. -/
def cachesKeys (cs : CacheStorage) : List String :=
  cs.map Prod.fst

/-- The partition of a name, if it exists. -/
def partition? : CacheStorage → String → Option Cache
  | [], _ => none
  | (n, c) :: rest, name => if n = name then some c else partition? rest name

/-- The host `caches.open(name)`: the partition is created empty when absent.
The handle it yields is the name. -/
def cachesOpen (cs : CacheStorage) (name : String) : CacheStorage :=
  match partition? cs name with
  | some _ => cs
  | none => cs ++ [(name, [])]

/-- The host `caches.delete(name)`. -/
def cachesDelete (cs : CacheStorage) (name : String) : CacheStorage :=
  cs.filter (fun p => decide (p.1 ≠ name))

/-- Calling `match` on the handle of the partition `name`. -/
def storageMatch (cs : CacheStorage) (name : String) (key : Request) : Option Response :=
  match partition? cs name with
  | some c => cacheMatch c key
  | none => none

/-- Calling `put` on the handle of the partition `name`. -/
def storagePut : CacheStorage → String → Request → Response → CacheStorage
  | [], _, _, _ => []
  | (n, c) :: rest, name, key, r =>
    if n = name then (n, cachePut c key r) :: rest
    else (n, c) :: storagePut rest name key r

/-- The host `caches.match(request)`: the first match over all partitions, in
creation order. -/
def cachesMatch : CacheStorage → Request → Option Response
  | [], _ => none
  | (_, c) :: rest, key =>
    match cacheMatch c key with
    | some r => some r
    | none => cachesMatch rest key

/-! ## Effects and runs -/

/-- Observable effects of a handler. -/
inductive Effect where
  | fetch (request : Request)
  | networkFirst (request : Request)
  | cacheFirst (request : Request)
  | cacheDelete (name : String)
  | skipWaiting
  | clientsClaim
  deriving DecidableEq, Repr

/-- The result of running a piece of the worker. -/
structure Run (α : Type) where
  value : α
  caches : CacheStorage
  trace : List Effect

/-- The worker's environment: `location.origin` and the network. -/
structure Env where
  origin : String
  fetch : Request → Except JsError Response

/-- The request made from a URL string relative to the worker, as in
`caches.match('/offline.html')` or `cache.addAll([...])`. -/
def requestOfPath (env : Env) (path : String) : Request :=
  { url := { origin := env.origin, pathname := path, search := "" }, method := "GET",
    mode := "cors", headers := [] }

/-! ## Strategies (sw.js lines 87-139) -/

/-- Cache-first strategy, `cacheFirstStrategy(request)`. -/
def cacheFirstStrategy (env : Env) (cs : CacheStorage) (request : Request) : Run Settled :=
  let cs1 := cachesOpen cs RUNTIME_CACHE
  match storageMatch cs1 RUNTIME_CACHE request with
  | some cachedResponse => ⟨.ok (some cachedResponse), cs1, []⟩
  | none =>
    match env.fetch request with
    | .ok networkResponse =>
      let cs2 :=
        if networkResponse.ok then storagePut cs1 RUNTIME_CACHE request networkResponse
        else cs1
      ⟨.ok (some networkResponse), cs2, [Effect.fetch request]⟩
    | .error error =>
      if request.mode = "navigate" then
        ⟨.ok (cachesMatch cs1 (requestOfPath env "/offline.html")), cs1, [Effect.fetch request]⟩
      else
        ⟨.error error, cs1, [Effect.fetch request]⟩

/-- Network-first strategy, `networkFirstStrategy(request)`. -/
def networkFirstStrategy (env : Env) (cs : CacheStorage) (request : Request) : Run Settled :=
  let cs1 := cachesOpen cs DATA_CACHE
  match env.fetch request with
  | .ok networkResponse =>
    let cs2 :=
      if networkResponse.ok then storagePut cs1 DATA_CACHE request networkResponse
      else cs1
    ⟨.ok (some networkResponse), cs2, [Effect.fetch request]⟩
  | .error error =>
    match storageMatch cs1 DATA_CACHE request with
    | some cachedResponse => ⟨.ok (some cachedResponse), cs1, [Effect.fetch request]⟩
    | none => ⟨.error error, cs1, [Effect.fetch request]⟩

/-! ## The fetch handler (sw.js lines 56-84) -/

/-- What the fetch listener does with the event: nothing (the browser handles
the request), or `event.respondWith(p)` for a promise settling as `p`. -/
inductive FetchOutcome where
  | passthrough
  | respondWith (p : Settled)

/-- The `fetch` event listener. -/
def onFetch (env : Env) (cs : CacheStorage) (request : Request) : Run FetchOutcome :=
  let url := request.url
  if url.origin ≠ env.origin then
    ⟨.passthrough, cs, []⟩
  else if includes url.pathname "/api/" || includes url.pathname "supabase" then
    let r := networkFirstStrategy env cs request
    ⟨.respondWith r.value, r.caches, Effect.networkFirst request :: r.trace⟩
  else if request.mode = "navigate" then
    match env.fetch request with
    | .ok response => ⟨.respondWith (.ok (some response)), cs, [Effect.fetch request]⟩
    | .error _ =>
      ⟨.respondWith (.ok (cachesMatch cs (requestOfPath env "/offline.html"))), cs,
        [Effect.fetch request]⟩
  else
    let r := cacheFirstStrategy env cs request
    ⟨.respondWith r.value, r.caches, Effect.cacheFirst request :: r.trace⟩

/-- A sequence of fetch events, each with the environment it runs in: the
storage after handling them in order. -/
def runFetches : List (Env × Request) → CacheStorage → CacheStorage
  | [], cs => cs
  | (env, request) :: rest, cs => runFetches rest (onFetch env cs request).caches

/-! ## Install (sw.js lines 20-33) -/

/-- The fetches of the host `cache.addAll(urls)`: the pairs to store when every
asset resolves with a response that is ok, is not a 206 and has no `*` in its
`Vary`; the rejection otherwise. -/
def fetchAssets (env : Env) : List String → Except JsError (List (Request × Response))
  | [] => .ok []
  | asset :: rest =>
    match env.fetch (requestOfPath env asset) with
    | .error e => .error e
    | .ok response =>
      if response.ok && decide (response.status ≠ 206) && decide ("*" ∉ response.vary) then
        match fetchAssets env rest with
        | .error e => .error e
        | .ok entries => .ok ((requestOfPath env asset, response) :: entries)
      else .error ⟨"TypeError"⟩

/-- The host `cache.addAll(urls)` on the handle of the partition `name`: all
assets are requested; they are stored only if all of them arrived. -/
def cacheAddAll (env : Env) (cs : CacheStorage) (name : String) (assets : List String) :
    Run (Except JsError Unit) :=
  let requested := assets.map (fun a => Effect.fetch (requestOfPath env a))
  match fetchAssets env assets with
  | .error e => ⟨.error e, cs, requested⟩
  | .ok entries =>
    ⟨.ok (), entries.foldl (fun acc e => storagePut acc name e.1 e.2) cs, requested⟩

/-- The `install` event listener.  The value is how the promise handed to
`event.waitUntil` settles; `self.skipWaiting()` is called synchronously, before
the pre-caching requests go out. -/
def onInstall (env : Env) (cs : CacheStorage) : Run (Except JsError Unit) :=
  let cs1 := cachesOpen cs CACHE_NAME
  let added := cacheAddAll env cs1 CACHE_NAME PRECACHE_ASSETS
  let settled : Except JsError Unit :=
    match added.value with
    | .ok u => .ok u
    | .error _ => .ok ()
  ⟨settled, added.caches, Effect.skipWaiting :: added.trace⟩

/-! ## Activate (sw.js lines 36-53) -/

/-- The callback mapped over `cacheNames` in the `activate` listener, threaded
through the storage and the trace. -/
def activateStep (acc : CacheStorage × List Effect) (cacheName : String) :
    CacheStorage × List Effect :=
  if cacheName ≠ CACHE_NAME ∧ cacheName ≠ RUNTIME_CACHE ∧ cacheName ≠ DATA_CACHE then
    (cachesDelete acc.1 cacheName, acc.2 ++ [Effect.cacheDelete cacheName])
  else acc

/-- The `activate` event listener.  The value is how the promise handed to
`event.waitUntil` settles; `self.clients.claim()` is called synchronously. -/
def onActivate (cs : CacheStorage) : Run (Except JsError Unit) :=
  let cacheNames := cachesKeys cs
  let done := cacheNames.foldl activateStep (cs, [])
  ⟨.ok (), done.1, Effect.clientsClaim :: done.2⟩

/-! ## Vocabulary of the statements -/

/-- The request path carries an API marker (the test of sw.js line 66). -/
def apiMarked (request : Request) : Bool :=
  includes request.url.pathname "/api/" || includes request.url.pathname "supabase"

/-- The name is one of the three current partition names. -/
def currentName (name : String) : Bool :=
  decide (name = CACHE_NAME) || decide (name = RUNTIME_CACHE) || decide (name = DATA_CACHE)

/-- Every entry of the partition is an ok response. -/
def AllOk (c : Cache) : Prop :=
  ∀ e ∈ c, e.2.ok = true

/-- Every entry of the runtime and data partitions is an ok response. -/
def DynamicOk (cs : CacheStorage) : Prop :=
  ∀ p ∈ cs, p.1 = RUNTIME_CACHE ∨ p.1 = DATA_CACHE → AllOk p.2

/-- The query of `caches.match('/offline.html')`. -/
def offlineKey (env : Env) : Request :=
  requestOfPath env "/offline.html"

/-! ## Sample inputs -/

/-- The page origin of the samples. -/
def sampleOrigin : String := "https://fineasy.app"

/-- The error of the sample network failure. -/
def networkDown : JsError := ⟨"Failed to fetch"⟩

/-- A network on which every fetch is rejected. -/
def offlineEnv : Env := { origin := sampleOrigin, fetch := fun _ => .error networkDown }

/-- A network answering every request with the given response. -/
def answering (response : Response) : Env :=
  { origin := sampleOrigin, fetch := fun _ => .ok response }

/-- The offline fallback document. -/
def offlineDoc : Response := ⟨200, "<h1>You are offline</h1>", []⟩

/-- A 200 response of the accounts API. -/
def accountsOk : Response := ⟨200, "[1, 2]", ["accept"]⟩

/-- A 500 response. -/
def serverError : Response := ⟨500, "Internal Server Error", []⟩

/-- A 404 response. -/
def notFound : Response := ⟨404, "Not Found", []⟩

/-- A 200 response to a write. -/
def created : Response := ⟨200, "created", []⟩

/-- A 206 response (part of a resource). -/
def partialContent : Response := ⟨206, "part", []⟩

/-- A 200 response whose `Vary` header is `*`. -/
def variesOnAll : Response := ⟨200, "personalised", ["*"]⟩

/-- The request `GET /api/accounts`, issued by a script of the page. -/
def accountsRequest : Request :=
  ⟨⟨sampleOrigin, "/api/accounts", ""⟩, "GET", "cors", [("accept", "application/json")]⟩

/-- The request `POST /api/accounts`, issued by a script of the page. -/
def createAccount : Request :=
  ⟨⟨sampleOrigin, "/api/accounts", ""⟩, "POST", "cors", [("accept", "application/json")]⟩

/-- A full-page load of `/api/accounts`. -/
def accountsNavigation : Request :=
  ⟨⟨sampleOrigin, "/api/accounts", ""⟩, "GET", "navigate", []⟩

/-- A full-page load of `/dashboard`. -/
def dashboardNavigation : Request :=
  ⟨⟨sampleOrigin, "/dashboard", ""⟩, "GET", "navigate", []⟩

/-- The request `POST /contact`, a form submitted by a script of the page. -/
def contactPost : Request :=
  ⟨⟨sampleOrigin, "/contact", ""⟩, "POST", "cors", []⟩

/-- The request `GET /styles/app.css`, a subresource of the page. -/
def stylesRequest : Request :=
  ⟨⟨sampleOrigin, "/styles/app.css", ""⟩, "GET", "no-cors", []⟩

/-- A request to another origin. -/
def fontRequest : Request :=
  ⟨⟨"https://fonts.example", "/api/font.woff2", ""⟩, "GET", "navigate", []⟩

/-- A storage whose precache partition holds the offline document. -/
def precached : CacheStorage :=
  [(CACHE_NAME, [(requestOfPath offlineEnv "/offline.html", offlineDoc)])]

/-- A storage with the three current partitions and two stale ones. -/
def afterVersionBump : CacheStorage :=
  [("fineasy-v0", [(requestOfPath offlineEnv "/offline.html", offlineDoc)]),
   (CACHE_NAME, [(requestOfPath offlineEnv "/offline.html", offlineDoc)]),
   (RUNTIME_CACHE, []),
   ("fineasy-data-v0", [(accountsRequest, accountsOk)]),
   (DATA_CACHE, [(accountsRequest, accountsOk)])]

/-! ## Lemmas on the host cache storage -/

theorem firstMatch_append_self (c : Cache) (key : Request) (r : Response)
    (h : ∀ e ∈ c, requestMatches key e.1 e.2 = false)
    (hself : requestMatches key key r = true) :
    firstMatch (c ++ [(key, r)]) key = some r := by
  induction c with
  | nil => simp [firstMatch, hself]
  | cons e rest ih =>
    obtain ⟨k, v⟩ := e
    have hk : requestMatches key k v = false := h (k, v) (by simp)
    have hrest : ∀ e ∈ rest, requestMatches key e.1 e.2 = false :=
      fun e he => h e (by simp [he])
    simp [firstMatch, hk, ih hrest]

theorem requestMatches_self (key : Request) (r : Response)
    (h : putAccepted key r = true) : requestMatches key key r = true := by
  simp only [putAccepted, Bool.and_eq_true, decide_eq_true_eq] at h
  obtain ⟨⟨hget, _⟩, hvary⟩ := h
  simp only [requestMatches, hget, decide_True, Bool.true_and, List.all_eq_true,
    Bool.and_eq_true, decide_eq_true_eq, and_true]
  intro name hname hstar
  exact hvary (hstar ▸ hname)

theorem cacheMatch_cachePut (c : Cache) (key : Request) (r : Response)
    (h : putAccepted key r = true) : cacheMatch (cachePut c key r) key = some r := by
  have hget : key.method = "GET" := by
    simp only [putAccepted, Bool.and_eq_true, decide_eq_true_eq] at h
    exact h.1.1
  unfold cachePut cacheMatch
  rw [if_pos h, if_pos hget]
  apply firstMatch_append_self
  · intro e he
    simpa using (List.mem_filter.mp he).2
  · exact requestMatches_self key r h

theorem cachePut_of_rejected (c : Cache) (key : Request) (r : Response)
    (h : putAccepted key r = false) : cachePut c key r = c := by
  simp [cachePut, h]

theorem partition?_append_none (cs : CacheStorage) (name : String)
    (h : partition? cs name = none) (c : Cache) :
    partition? (cs ++ [(name, c)]) name = some c := by
  induction cs with
  | nil => simp [partition?]
  | cons p rest ih =>
    obtain ⟨n, d⟩ := p
    by_cases hn : n = name
    · simp [partition?, hn] at h
    · simp [partition?, hn] at h ⊢
      exact ih h

theorem partition?_cachesOpen (cs : CacheStorage) (name : String) :
    partition? (cachesOpen cs name) name = some ((partition? cs name).getD []) := by
  unfold cachesOpen
  cases h : partition? cs name with
  | some c => simp [h]
  | none => simpa using partition?_append_none cs name h []

theorem cachesOpen_eq (cs : CacheStorage) (name : String) :
    cachesOpen cs name = cs ∨
      (partition? cs name = none ∧ cachesOpen cs name = cs ++ [(name, [])]) := by
  unfold cachesOpen
  cases h : partition? cs name with
  | some c => simp
  | none => simp

theorem storageMatch_cachesOpen (cs : CacheStorage) (name : String) (key : Request) :
    storageMatch (cachesOpen cs name) name key = storageMatch cs name key := by
  unfold storageMatch
  rw [partition?_cachesOpen]
  cases h : partition? cs name with
  | some c => simp
  | none => simp [cacheMatch, firstMatch]

theorem partition?_storagePut (cs : CacheStorage) (name : String) (key : Request) (r : Response)
    (c : Cache) (h : partition? cs name = some c) :
    partition? (storagePut cs name key r) name = some (cachePut c key r) := by
  induction cs with
  | nil => simp [partition?] at h
  | cons p rest ih =>
    obtain ⟨n, d⟩ := p
    by_cases hn : n = name
    · simp [partition?, hn] at h
      simp [storagePut, partition?, hn, h]
    · simp [partition?, hn] at h
      simp [storagePut, partition?, hn, ih h]

theorem storageMatch_put_open (cs : CacheStorage) (name : String) (key : Request) (r : Response)
    (h : putAccepted key r = true) :
    storageMatch (storagePut (cachesOpen cs name) name key r) name key = some r := by
  unfold storageMatch
  rw [partition?_storagePut _ _ _ _ _ (partition?_cachesOpen cs name)]
  exact cacheMatch_cachePut _ _ _ h

/-! ## The fetch handler: cross-origin requests -/

/-- C5: for every request whose URL origin differs from the page origin, whatever
its path and mode, the fetch handler returns without calling `respondWith`,
invokes no strategy, makes no network call (its trace is empty) and leaves the
cache storage exactly as it was. -/
theorem onFetch_cross_origin (env : Env) (cs : CacheStorage) (request : Request)
    (horigin : request.url.origin ≠ env.origin) :
    (onFetch env cs request).value = FetchOutcome.passthrough ∧
      (onFetch env cs request).trace = [] ∧
      (onFetch env cs request).caches = cs := by
  simp [onFetch, horigin]

theorem onFetch_cross_origin_witness :
    fontRequest.url.origin ≠ offlineEnv.origin ∧
      (onFetch offlineEnv afterVersionBump fontRequest).value = FetchOutcome.passthrough ∧
      (onFetch offlineEnv afterVersionBump fontRequest).trace = [] ∧
      (onFetch offlineEnv afterVersionBump fontRequest).caches = afterVersionBump :=
  ⟨by decide, onFetch_cross_origin offlineEnv afterVersionBump fontRequest (by decide)⟩

/-! ## Install -/

/-- C8: install always succeeds.  For every network (hence every outcome of
pre-caching the fixed asset list, failures included) and every cache storage,
the promise the install handler hands to `waitUntil` resolves, and
`skipWaiting` is called. -/
theorem onInstall_resolves (env : Env) (cs : CacheStorage) :
    (onInstall env cs).value = Except.ok () ∧
      Effect.skipWaiting ∈ (onInstall env cs).trace := by
  constructor
  · show (match (cacheAddAll env (cachesOpen cs CACHE_NAME) CACHE_NAME PRECACHE_ASSETS).value with
      | Except.ok u => Except.ok u
      | Except.error _ => Except.ok ()) = (Except.ok () : Except JsError Unit)
    cases (cacheAddAll env (cachesOpen cs CACHE_NAME) CACHE_NAME PRECACHE_ASSETS).value <;> rfl
  · simp [onInstall]

/-! ## Network-first -/

theorem onFetch_api (env : Env) (cs : CacheStorage) (request : Request)
    (horigin : request.url.origin = env.origin) (hapi : apiMarked request = true) :
    onFetch env cs request =
      ⟨FetchOutcome.respondWith (networkFirstStrategy env cs request).value,
        (networkFirstStrategy env cs request).caches,
        Effect.networkFirst request :: (networkFirstStrategy env cs request).trace⟩ := by
  unfold apiMarked at hapi
  simp only [onFetch, horigin, ne_eq, not_true_eq_false, if_false, hapi, if_true]

theorem networkFirst_of_error (env : Env) (cs : CacheStorage) (request : Request) (e : JsError)
    (hfail : env.fetch request = Except.error e) :
    networkFirstStrategy env cs request =
      match storageMatch cs DATA_CACHE request with
      | some cachedResponse =>
        ⟨Except.ok (some cachedResponse), cachesOpen cs DATA_CACHE, [Effect.fetch request]⟩
      | none => ⟨Except.error e, cachesOpen cs DATA_CACHE, [Effect.fetch request]⟩ := by
  simp only [networkFirstStrategy, hfail, storageMatch_cachesOpen]

theorem networkFirst_of_ok (env : Env) (cs : CacheStorage) (request : Request) (resp : Response)
    (hfetch : env.fetch request = Except.ok resp) :
    networkFirstStrategy env cs request =
      ⟨Except.ok (some resp),
        if resp.ok then storagePut (cachesOpen cs DATA_CACHE) DATA_CACHE request resp
        else cachesOpen cs DATA_CACHE,
        [Effect.fetch request]⟩ := by
  simp only [networkFirstStrategy, hfetch]

/-- C3: for every API-marked same-origin request whose network fetch fails with
error `e`, the fetch handler responds with `networkFirstStrategy`, which returns
the data-partition entry of the request when there is one and otherwise fails
with exactly `e`; in both cases the storage is left as it was, up to the empty
data partition that `caches.open` creates when none existed. -/
theorem networkFirst_network_failure (env : Env) (cs : CacheStorage) (request : Request)
    (e : JsError) (horigin : request.url.origin = env.origin)
    (hapi : apiMarked request = true) (hfail : env.fetch request = Except.error e) :
    (onFetch env cs request).value =
        FetchOutcome.respondWith (networkFirstStrategy env cs request).value ∧
      (∀ cached, storageMatch cs DATA_CACHE request = some cached →
        (networkFirstStrategy env cs request).value = Except.ok (some cached)) ∧
      (storageMatch cs DATA_CACHE request = none →
        (networkFirstStrategy env cs request).value = Except.error e) ∧
      ((networkFirstStrategy env cs request).caches = cs ∨
        (partition? cs DATA_CACHE = none ∧
          (networkFirstStrategy env cs request).caches = cs ++ [(DATA_CACHE, [])])) := by
  rw [onFetch_api env cs request horigin hapi, networkFirst_of_error env cs request e hfail]
  refine ⟨rfl, ?_, ?_, ?_⟩
  · intro cached h
    simp [h]
  · intro h
    simp [h]
  · have hcaches : (match storageMatch cs DATA_CACHE request with
        | some cachedResponse =>
          (⟨Except.ok (some cachedResponse), cachesOpen cs DATA_CACHE, [Effect.fetch request]⟩ :
            Run Settled)
        | none => ⟨Except.error e, cachesOpen cs DATA_CACHE, [Effect.fetch request]⟩).caches =
        cachesOpen cs DATA_CACHE := by
      cases storageMatch cs DATA_CACHE request <;> rfl
    rw [hcaches]
    exact cachesOpen_eq cs DATA_CACHE

theorem networkFirst_network_failure_witness :
    accountsRequest.url.origin = offlineEnv.origin ∧
      apiMarked accountsRequest = true ∧
      offlineEnv.fetch accountsRequest = Except.error networkDown ∧
      storageMatch afterVersionBump DATA_CACHE accountsRequest = some accountsOk ∧
      (networkFirstStrategy offlineEnv afterVersionBump accountsRequest).value =
        Except.ok (some accountsOk) ∧
      (networkFirstStrategy offlineEnv afterVersionBump accountsRequest).caches =
        afterVersionBump :=
  ⟨by decide, by decide, rfl, by decide,
    (networkFirst_network_failure offlineEnv afterVersionBump accountsRequest networkDown
      (by decide) (by decide) rfl).2.1 accountsOk (by decide),
    by decide⟩

/-- C2, as the code has it: for every API-marked same-origin request whose network
fetch resolves with a response, the fetch handler responds with
`networkFirstStrategy`, which returns that response; the data partition
afterwards maps the request to it when the response is ok (status 200..299) and
the host cache accepts the write (request method `GET`, status other than 206,
no `*` in the response's `Vary`); when the response is not ok nothing is stored:
the storage is left as it was, up to the empty data partition that
`caches.open` creates when none existed. -/
theorem networkFirst_network_success (env : Env) (cs : CacheStorage) (request : Request)
    (resp : Response) (horigin : request.url.origin = env.origin)
    (hapi : apiMarked request = true) (hfetch : env.fetch request = Except.ok resp) :
    (onFetch env cs request).value =
        FetchOutcome.respondWith (networkFirstStrategy env cs request).value ∧
      (networkFirstStrategy env cs request).value = Except.ok (some resp) ∧
      (resp.ok = true → putAccepted request resp = true →
        storageMatch (networkFirstStrategy env cs request).caches DATA_CACHE request =
          some resp) ∧
      (resp.ok = false →
        ((networkFirstStrategy env cs request).caches = cs ∨
          (partition? cs DATA_CACHE = none ∧
            (networkFirstStrategy env cs request).caches = cs ++ [(DATA_CACHE, [])]))) := by
  rw [onFetch_api env cs request horigin hapi, networkFirst_of_ok env cs request resp hfetch]
  refine ⟨rfl, rfl, ?_, ?_⟩
  · intro hok haccepted
    simp only [hok, if_true]
    exact storageMatch_put_open cs DATA_CACHE request resp haccepted
  · intro hok
    simp only [hok, Bool.false_eq_true, if_false]
    exact cachesOpen_eq cs DATA_CACHE

theorem networkFirst_network_success_witness :
    accountsRequest.url.origin = (answering accountsOk).origin ∧
      apiMarked accountsRequest = true ∧
      (answering accountsOk).fetch accountsRequest = Except.ok accountsOk ∧
      accountsOk.ok = true ∧ putAccepted accountsRequest accountsOk = true ∧
      (networkFirstStrategy (answering accountsOk) precached accountsRequest).value =
        Except.ok (some accountsOk) ∧
      storageMatch (networkFirstStrategy (answering accountsOk) precached accountsRequest).caches
        DATA_CACHE accountsRequest = some accountsOk :=
  ⟨by decide, by decide, rfl, by decide, by decide,
    (networkFirst_network_success (answering accountsOk) precached accountsRequest accountsOk
      (by decide) (by decide) rfl).2.1,
    (networkFirst_network_success (answering accountsOk) precached accountsRequest accountsOk
      (by decide) (by decide) rfl).2.2.1 (by decide) (by decide)⟩

/-- C2 as stated fails.  The API request `GET /api/accounts` is answered by the
network with a 500 response: `networkFirstStrategy` returns it, but the data
partition afterwards has no entry for the request (the write is guarded by
`networkResponse.ok`).  The API request `POST /api/accounts` is answered with a
200 response: `networkFirstStrategy` returns it and calls `cache.put`, which the
host rejects for a request that is not a `GET`, so the data partition
afterwards holds nothing.  The same happens to `GET /api/accounts` answered
with a 206 response and answered with a 200 response whose `Vary` is `*`. -/
theorem networkFirst_success_not_stored :
    (accountsRequest.url.origin = (answering serverError).origin ∧
      apiMarked accountsRequest = true ∧
      (answering serverError).fetch accountsRequest = Except.ok serverError ∧
      (networkFirstStrategy (answering serverError) precached accountsRequest).value =
        Except.ok (some serverError) ∧
      storageMatch (networkFirstStrategy (answering serverError) precached accountsRequest).caches
        DATA_CACHE accountsRequest = none) ∧
    (createAccount.url.origin = (answering created).origin ∧
      apiMarked createAccount = true ∧
      (answering created).fetch createAccount = Except.ok created ∧ created.ok = true ∧
      (networkFirstStrategy (answering created) precached createAccount).value =
        Except.ok (some created) ∧
      storageMatch (networkFirstStrategy (answering created) precached createAccount).caches
        DATA_CACHE createAccount = none ∧
      partition? (networkFirstStrategy (answering created) precached createAccount).caches
        DATA_CACHE = some []) ∧
    ((answering partialContent).fetch accountsRequest = Except.ok partialContent ∧
      partialContent.ok = true ∧
      (networkFirstStrategy (answering partialContent) precached accountsRequest).value =
        Except.ok (some partialContent) ∧
      storageMatch
        (networkFirstStrategy (answering partialContent) precached accountsRequest).caches
        DATA_CACHE accountsRequest = none) ∧
    ((answering variesOnAll).fetch accountsRequest = Except.ok variesOnAll ∧
      variesOnAll.ok = true ∧
      (networkFirstStrategy (answering variesOnAll) precached accountsRequest).value =
        Except.ok (some variesOnAll) ∧
      storageMatch
        (networkFirstStrategy (answering variesOnAll) precached accountsRequest).caches
        DATA_CACHE accountsRequest = none) :=
  ⟨⟨by decide, by decide, rfl, rfl, by decide⟩,
    ⟨by decide, by decide, rfl, by decide, rfl, by decide, by decide⟩,
    ⟨rfl, by decide, rfl, by decide⟩, ⟨rfl, by decide, rfl, by decide⟩⟩

/-- C7, as the code has it: offline round trip for API `GET` requests.  For every
API-marked same-origin request `r` whose method is `GET`, every response `p`
with status 200 whose `Vary` does not contain `*`, and every cache state: when
`r` is handled with the network returning `p` and then handled again with the
network failing, the second handling responds with `p`. -/
theorem api_offline_round_trip (env1 env2 : Env) (cs : CacheStorage) (r : Request)
    (p : Response) (e : JsError)
    (horigin1 : r.url.origin = env1.origin) (horigin2 : r.url.origin = env2.origin)
    (hapi : apiMarked r = true) (hget : r.method = "GET") (hstatus : p.status = 200)
    (hvary : "*" ∉ p.vary)
    (hfirst : env1.fetch r = Except.ok p) (hsecond : env2.fetch r = Except.error e) :
    (onFetch env1 cs r).value = FetchOutcome.respondWith (Except.ok (some p)) ∧
      (onFetch env2 (onFetch env1 cs r).caches r).value =
        FetchOutcome.respondWith (Except.ok (some p)) := by
  have hok : p.ok = true := by simp [Response.ok, hstatus]
  have haccepted : putAccepted r p = true := by simp [putAccepted, hget, hstatus, hvary]
  have hstored : storageMatch (networkFirstStrategy env1 cs r).caches DATA_CACHE r =
      some p := by
    rw [networkFirst_of_ok env1 cs r p hfirst]
    simp only [hok, if_true]
    exact storageMatch_put_open cs DATA_CACHE r p haccepted
  rw [onFetch_api env2 _ r horigin2 hapi, onFetch_api env1 cs r horigin1 hapi]
  refine ⟨?_, ?_⟩
  · rw [networkFirst_of_ok env1 cs r p hfirst]
  · rw [networkFirst_of_error env2 _ r e hsecond]
    simp only [hstored]

theorem api_offline_round_trip_witness :
    accountsRequest.url.origin = (answering accountsOk).origin ∧
      accountsRequest.url.origin = offlineEnv.origin ∧
      apiMarked accountsRequest = true ∧ accountsRequest.method = "GET" ∧
      accountsOk.status = 200 ∧ "*" ∉ accountsOk.vary ∧
      (onFetch offlineEnv (onFetch (answering accountsOk) [] accountsRequest).caches
        accountsRequest).value = FetchOutcome.respondWith (Except.ok (some accountsOk)) :=
  ⟨by decide, by decide, by decide, by decide, by decide, by decide,
    (api_offline_round_trip (answering accountsOk) offlineEnv [] accountsRequest accountsOk
      networkDown (by decide) (by decide) (by decide) (by decide) (by decide) (by decide)
      rfl rfl).2⟩

/-- C7 as stated fails: the API request `POST /api/accounts` is handled with the
network returning a 200 response, which the handler returns; the host cache
rejects the write of a request that is not a `GET`, so when the identical
request is handled again with the network failing, the handler responds with
a rejection carrying the network error, not with the 200 response.  The same
happens to `GET /api/accounts` when the 200 response has `Vary: *`. -/
theorem api_round_trip_fails_for_post :
    (accountsRequest.url.origin = offlineEnv.origin ∧ apiMarked accountsRequest = true ∧
      variesOnAll.status = 200 ∧
      (answering variesOnAll).fetch accountsRequest = Except.ok variesOnAll ∧
      (onFetch (answering variesOnAll) precached accountsRequest).value =
        FetchOutcome.respondWith (Except.ok (some variesOnAll)) ∧
      (onFetch offlineEnv (onFetch (answering variesOnAll) precached accountsRequest).caches
        accountsRequest).value = FetchOutcome.respondWith (Except.error networkDown)) ∧
    createAccount.url.origin = (answering created).origin ∧
      createAccount.url.origin = offlineEnv.origin ∧
      apiMarked createAccount = true ∧ created.status = 200 ∧
      (answering created).fetch createAccount = Except.ok created ∧
      offlineEnv.fetch createAccount = Except.error networkDown ∧
      (onFetch (answering created) precached createAccount).value =
        FetchOutcome.respondWith (Except.ok (some created)) ∧
      (onFetch offlineEnv (onFetch (answering created) precached createAccount).caches
        createAccount).value = FetchOutcome.respondWith (Except.error networkDown) :=
  ⟨⟨by decide, by decide, by decide, rfl, rfl, rfl⟩,
    by decide, by decide, by decide, by decide, rfl, rfl, rfl, rfl⟩

/-! ## Cache-first -/

theorem onFetch_other (env : Env) (cs : CacheStorage) (request : Request)
    (horigin : request.url.origin = env.origin) (hapi : apiMarked request = false)
    (hmode : request.mode ≠ "navigate") :
    onFetch env cs request =
      ⟨FetchOutcome.respondWith (cacheFirstStrategy env cs request).value,
        (cacheFirstStrategy env cs request).caches,
        Effect.cacheFirst request :: (cacheFirstStrategy env cs request).trace⟩ := by
  unfold apiMarked at hapi
  simp only [onFetch, horigin, ne_eq, not_true_eq_false, if_false, hapi, hmode,
    Bool.false_eq_true]

theorem cacheFirst_of_hit (env : Env) (cs : CacheStorage) (request : Request)
    (cached : Response) (hhit : storageMatch cs RUNTIME_CACHE request = some cached) :
    cacheFirstStrategy env cs request =
      ⟨Except.ok (some cached), cachesOpen cs RUNTIME_CACHE, []⟩ := by
  simp only [cacheFirstStrategy, storageMatch_cachesOpen, hhit]

theorem cacheFirst_of_miss_ok (env : Env) (cs : CacheStorage) (request : Request)
    (resp : Response) (hmiss : storageMatch cs RUNTIME_CACHE request = none)
    (hfetch : env.fetch request = Except.ok resp) :
    cacheFirstStrategy env cs request =
      ⟨Except.ok (some resp),
        if resp.ok then storagePut (cachesOpen cs RUNTIME_CACHE) RUNTIME_CACHE request resp
        else cachesOpen cs RUNTIME_CACHE,
        [Effect.fetch request]⟩ := by
  simp only [cacheFirstStrategy, storageMatch_cachesOpen, hmiss, hfetch]

theorem cacheFirst_of_miss_error (env : Env) (cs : CacheStorage) (request : Request)
    (e : JsError) (hmiss : storageMatch cs RUNTIME_CACHE request = none)
    (hfail : env.fetch request = Except.error e) :
    cacheFirstStrategy env cs request =
      if request.mode = "navigate" then
        ⟨Except.ok (cachesMatch (cachesOpen cs RUNTIME_CACHE) (offlineKey env)),
          cachesOpen cs RUNTIME_CACHE, [Effect.fetch request]⟩
      else ⟨Except.error e, cachesOpen cs RUNTIME_CACHE, [Effect.fetch request]⟩ := by
  simp only [cacheFirstStrategy, storageMatch_cachesOpen, hmiss, hfail, offlineKey]

theorem cacheFirst_trace_of_miss (env : Env) (cs : CacheStorage) (request : Request)
    (hmiss : storageMatch cs RUNTIME_CACHE request = none) :
    (cacheFirstStrategy env cs request).trace = [Effect.fetch request] := by
  cases hfetch : env.fetch request with
  | ok resp => rw [cacheFirst_of_miss_ok env cs request resp hmiss hfetch]
  | error e =>
    rw [cacheFirst_of_miss_error env cs request e hmiss hfetch]
    split <;> rfl

/-- C4, as the code has it: for every same-origin request that is neither
API-marked nor a navigation, the fetch handler responds with
`cacheFirstStrategy`.  If the runtime partition holds an entry for the request,
the strategy returns that entry and makes no network call.  Otherwise it makes
exactly one network call; when that call resolves with a response, the response
is the value returned; it is stored in the runtime partition under the request
key when it is ok (status 200..299) and the host cache accepts the write
(request method `GET`, status other than 206, no `*` in the response's `Vary`),
and it is not stored when it is not ok. -/
theorem cacheFirst_behaviour (env : Env) (cs : CacheStorage) (request : Request)
    (horigin : request.url.origin = env.origin) (hapi : apiMarked request = false)
    (hmode : request.mode ≠ "navigate") :
    (onFetch env cs request).value =
        FetchOutcome.respondWith (cacheFirstStrategy env cs request).value ∧
      (∀ cached, storageMatch cs RUNTIME_CACHE request = some cached →
        (cacheFirstStrategy env cs request).value = Except.ok (some cached) ∧
          (cacheFirstStrategy env cs request).trace = []) ∧
      (storageMatch cs RUNTIME_CACHE request = none →
        (cacheFirstStrategy env cs request).trace = [Effect.fetch request] ∧
          ∀ resp, env.fetch request = Except.ok resp →
            (cacheFirstStrategy env cs request).value = Except.ok (some resp) ∧
              (resp.ok = true → putAccepted request resp = true →
                storageMatch (cacheFirstStrategy env cs request).caches RUNTIME_CACHE
                  request = some resp) ∧
              (resp.ok = false →
                storageMatch (cacheFirstStrategy env cs request).caches RUNTIME_CACHE
                  request = none)) := by
  refine ⟨?_, ?_, ?_⟩
  · rw [onFetch_other env cs request horigin hapi hmode]
  · intro cached hhit
    rw [cacheFirst_of_hit env cs request cached hhit]
    exact ⟨rfl, rfl⟩
  · intro hmiss
    refine ⟨cacheFirst_trace_of_miss env cs request hmiss, ?_⟩
    intro resp hfetch
    rw [cacheFirst_of_miss_ok env cs request resp hmiss hfetch]
    refine ⟨rfl, ?_, ?_⟩
    · intro hok haccepted
      simp only [hok, if_true]
      exact storageMatch_put_open cs RUNTIME_CACHE request resp haccepted
    · intro hok
      simp only [hok, Bool.false_eq_true, if_false]
      rw [storageMatch_cachesOpen]
      exact hmiss

theorem cacheFirst_behaviour_witness :
    stylesRequest.url.origin = (answering accountsOk).origin ∧
      apiMarked stylesRequest = false ∧ stylesRequest.mode ≠ "navigate" ∧
      storageMatch precached RUNTIME_CACHE stylesRequest = none ∧
      (cacheFirstStrategy (answering accountsOk) precached stylesRequest).trace =
        [Effect.fetch stylesRequest] ∧
      (cacheFirstStrategy (answering accountsOk) precached stylesRequest).value =
        Except.ok (some accountsOk) ∧
      storageMatch (cacheFirstStrategy (answering accountsOk) precached stylesRequest).caches
        RUNTIME_CACHE stylesRequest = some accountsOk :=
  ⟨by decide, by decide, by decide, by decide,
    ((cacheFirst_behaviour (answering accountsOk) precached stylesRequest
      (by decide) (by decide) (by decide)).2.2 (by decide)).1,
    (((cacheFirst_behaviour (answering accountsOk) precached stylesRequest
      (by decide) (by decide) (by decide)).2.2 (by decide)).2 accountsOk rfl).1,
    (((cacheFirst_behaviour (answering accountsOk) precached stylesRequest
      (by decide) (by decide) (by decide)).2.2 (by decide)).2 accountsOk rfl).2.1 (by decide)
      (by decide)⟩

/-- C4 as stated fails.  The request `GET /styles/app.css` (same origin, no API
marker, not a navigation) has no runtime entry and the network call succeeds
with a 404 response: `cacheFirstStrategy` returns it, but the runtime partition
afterwards has no entry for the request (the write is guarded by
`networkResponse.ok`).  When the network call succeeds with a 206 response,
which is ok, `cacheFirstStrategy` returns it and calls `cache.put`, which the
host rejects for a 206, so the runtime partition afterwards holds nothing.  The
same happens when the response is a 200 whose `Vary` is `*`, and when the
request is `POST /contact` answered with a 200 response. -/
theorem cacheFirst_success_not_stored :
    (stylesRequest.url.origin = (answering notFound).origin ∧
      apiMarked stylesRequest = false ∧ stylesRequest.mode ≠ "navigate" ∧
      storageMatch precached RUNTIME_CACHE stylesRequest = none ∧
      (answering notFound).fetch stylesRequest = Except.ok notFound ∧
      (cacheFirstStrategy (answering notFound) precached stylesRequest).value =
        Except.ok (some notFound) ∧
      storageMatch (cacheFirstStrategy (answering notFound) precached stylesRequest).caches
        RUNTIME_CACHE stylesRequest = none) ∧
    ((answering partialContent).fetch stylesRequest = Except.ok partialContent ∧
      partialContent.ok = true ∧
      (cacheFirstStrategy (answering partialContent) precached stylesRequest).value =
        Except.ok (some partialContent) ∧
      storageMatch (cacheFirstStrategy (answering partialContent) precached stylesRequest).caches
        RUNTIME_CACHE stylesRequest = none ∧
      partition? (cacheFirstStrategy (answering partialContent) precached stylesRequest).caches
        RUNTIME_CACHE = some []) ∧
    ((answering variesOnAll).fetch stylesRequest = Except.ok variesOnAll ∧
      variesOnAll.ok = true ∧
      (cacheFirstStrategy (answering variesOnAll) precached stylesRequest).value =
        Except.ok (some variesOnAll) ∧
      storageMatch (cacheFirstStrategy (answering variesOnAll) precached stylesRequest).caches
        RUNTIME_CACHE stylesRequest = none) ∧
    (contactPost.url.origin = (answering created).origin ∧
      apiMarked contactPost = false ∧ contactPost.mode ≠ "navigate" ∧
      storageMatch precached RUNTIME_CACHE contactPost = none ∧
      (answering created).fetch contactPost = Except.ok created ∧ created.ok = true ∧
      (cacheFirstStrategy (answering created) precached contactPost).value =
        Except.ok (some created) ∧
      partition? (cacheFirstStrategy (answering created) precached contactPost).caches
        RUNTIME_CACHE = some []) :=
  ⟨⟨by decide, by decide, by decide, by decide, rfl, rfl, by decide⟩,
    ⟨rfl, by decide, rfl, by decide, by decide⟩,
    ⟨rfl, by decide, rfl, by decide⟩,
    ⟨by decide, by decide, by decide, by decide, rfl, by decide, rfl, by decide⟩⟩

/-! ## Navigation requests -/

theorem onFetch_navigation (env : Env) (cs : CacheStorage) (request : Request)
    (horigin : request.url.origin = env.origin) (hapi : apiMarked request = false)
    (hmode : request.mode = "navigate") :
    onFetch env cs request =
      match env.fetch request with
      | Except.ok response =>
        ⟨FetchOutcome.respondWith (Except.ok (some response)), cs, [Effect.fetch request]⟩
      | Except.error _ =>
        ⟨FetchOutcome.respondWith (Except.ok (cachesMatch cs (offlineKey env))), cs,
          [Effect.fetch request]⟩ := by
  unfold apiMarked at hapi
  simp only [onFetch, horigin, ne_eq, not_true_eq_false, if_false, hapi, hmode,
    Bool.false_eq_true, if_true, offlineKey]

theorem cachesMatch_some (cs : CacheStorage) (key : Request) (doc : Response)
    (h : cachesMatch cs key = some doc) : ∃ p ∈ cs, cacheMatch p.2 key = some doc := by
  induction cs with
  | nil => simp [cachesMatch] at h
  | cons p rest ih =>
    obtain ⟨n, c⟩ := p
    cases hc : cacheMatch c key with
    | some r =>
      simp only [cachesMatch, hc] at h
      exact ⟨(n, c), by simp, by rw [← h]; exact hc⟩
    | none =>
      simp only [cachesMatch, hc] at h
      obtain ⟨q, hq, hm⟩ := ih h
      exact ⟨q, by simp [hq], hm⟩

theorem cachesMatch_none (cs : CacheStorage) (key : Request) :
    cachesMatch cs key = none ↔ ∀ p ∈ cs, cacheMatch p.2 key = none := by
  induction cs with
  | nil => simp [cachesMatch]
  | cons p rest ih =>
    obtain ⟨n, c⟩ := p
    cases hc : cacheMatch c key with
    | some r => simp [cachesMatch, hc]
    | none => simp [cachesMatch, hc, ih]

/-- C1, as the code has it: for every same-origin request whose mode is
`'navigate'` and whose path carries no API marker, if the network fetch fails
then the fetch handler responds with the result of
`caches.match('/offline.html')` and leaves the storage unchanged.  That result
is a response stored under `/offline.html` in some partition whenever a
partition holds one, whatever else the partitions contain, and `undefined`
exactly when no partition holds one. -/
theorem navigation_network_failure (env : Env) (cs : CacheStorage) (request : Request)
    (e : JsError) (horigin : request.url.origin = env.origin)
    (hmode : request.mode = "navigate") (hapi : apiMarked request = false)
    (hfail : env.fetch request = Except.error e) :
    (onFetch env cs request).value =
        FetchOutcome.respondWith (Except.ok (cachesMatch cs (offlineKey env))) ∧
      (onFetch env cs request).caches = cs ∧
      (∀ doc, cachesMatch cs (offlineKey env) = some doc →
        ∃ p ∈ cs, cacheMatch p.2 (offlineKey env) = some doc) ∧
      (cachesMatch cs (offlineKey env) = none ↔
        ∀ p ∈ cs, cacheMatch p.2 (offlineKey env) = none) := by
  rw [onFetch_navigation env cs request horigin hapi hmode, hfail]
  exact ⟨rfl, rfl, cachesMatch_some cs (offlineKey env), cachesMatch_none cs (offlineKey env)⟩

theorem navigation_network_failure_witness :
    dashboardNavigation.url.origin = offlineEnv.origin ∧
      dashboardNavigation.mode = "navigate" ∧ apiMarked dashboardNavigation = false ∧
      offlineEnv.fetch dashboardNavigation = Except.error networkDown ∧
      cachesMatch precached (offlineKey offlineEnv) = some offlineDoc ∧
      (onFetch offlineEnv precached dashboardNavigation).value =
        FetchOutcome.respondWith (Except.ok (cachesMatch precached (offlineKey offlineEnv))) :=
  ⟨by decide, by decide, by decide, rfl, by decide,
    (navigation_network_failure offlineEnv precached dashboardNavigation networkDown
      (by decide) (by decide) (by decide) rfl).1⟩

/-- C1 as stated fails twice.  A same-origin navigation to `/api/accounts` whose
network fetch fails is answered by a rejection with the network error, although
the precache partition holds the offline document; and a same-origin navigation
to `/dashboard` whose network fetch fails is answered with `undefined` when no
partition holds the offline document. -/
theorem navigation_not_always_offline_doc :
    (accountsNavigation.url.origin = offlineEnv.origin ∧
      accountsNavigation.mode = "navigate" ∧
      offlineEnv.fetch accountsNavigation = Except.error networkDown ∧
      cachesMatch precached (offlineKey offlineEnv) = some offlineDoc ∧
      (onFetch offlineEnv precached accountsNavigation).value =
        FetchOutcome.respondWith (Except.error networkDown)) ∧
    (dashboardNavigation.url.origin = offlineEnv.origin ∧
      dashboardNavigation.mode = "navigate" ∧
      offlineEnv.fetch dashboardNavigation = Except.error networkDown ∧
      (onFetch offlineEnv [] dashboardNavigation).value =
        FetchOutcome.respondWith (Except.ok none)) :=
  ⟨⟨by decide, by decide, rfl, by decide, rfl⟩, ⟨by decide, by decide, rfl, rfl⟩⟩

/-! ## Activate -/

theorem foldl_activateStep (names : List String) (cs : CacheStorage) (tr : List Effect) :
    names.foldl activateStep (cs, tr) =
      (cs.filter (fun p => currentName p.1 || decide (p.1 ∉ names)),
        tr ++ (names.filter (fun n => !currentName n)).map Effect.cacheDelete) := by
  induction names generalizing cs tr with
  | nil => simp
  | cons n rest ih =>
    rw [List.foldl_cons]
    by_cases hcur : currentName n = true
    · have hstep : activateStep (cs, tr) n = (cs, tr) := by
        unfold activateStep
        simp only [currentName, Bool.or_eq_true, decide_eq_true_eq] at hcur
        rw [if_neg]
        rintro ⟨h1, h2, h3⟩
        rcases hcur with (h | h) | h
        · exact h1 h
        · exact h2 h
        · exact h3 h
      rw [hstep, ih]
      congr 1
      · apply List.filter_congr
        intro p _
        by_cases hp : p.1 = n
        · simp [hp, hcur]
        · simp [hp]
      · simp [List.filter_cons, hcur]
    · have hcur2 : currentName n = false := by simpa using hcur
      have hstep : activateStep (cs, tr) n =
          (cachesDelete cs n, tr ++ [Effect.cacheDelete n]) := by
        unfold activateStep
        simp only [currentName, Bool.or_eq_false_iff, decide_eq_false_iff_not] at hcur2
        rw [if_pos]
        exact ⟨hcur2.1.1, hcur2.1.2, hcur2.2⟩
      rw [hstep, ih]
      congr 1
      · unfold cachesDelete
        rw [List.filter_filter]
        apply List.filter_congr
        intro p _
        by_cases hp : p.1 = n
        · simp [hp, hcur2]
        · simp [hp]
      · simp [List.filter_cons, hcur2]

theorem onActivate_eq (cs : CacheStorage) :
    onActivate cs =
      ⟨Except.ok (), cs.filter (fun p => currentName p.1),
        Effect.clientsClaim ::
          ((cachesKeys cs).filter (fun n => !currentName n)).map Effect.cacheDelete⟩ := by
  unfold onActivate
  simp only [foldl_activateStep, List.nil_append]
  congr 1
  apply List.filter_congr
  intro p hp
  have : p.1 ∈ cachesKeys cs := List.mem_map_of_mem Prod.fst hp
  simp [this]

/-- C6: for every set of existing cache partitions, activation issues
`caches.delete` for exactly the partition names that are not one of
`'fineasy-v1'`, `'fineasy-runtime-v1'`, `'fineasy-data-v1'`, and the storage
afterwards consists of exactly the partitions with a current name, each with its
contents unchanged and in the same order.  Consequently activation is
idempotent: a second activation leaves the storage as the first one left it and
deletes nothing. -/
theorem onActivate_purges_stale (cs : CacheStorage) :
    (onActivate cs).caches =
        cs.filter (fun p => decide (p.1 = "fineasy-v1" ∨ p.1 = "fineasy-runtime-v1" ∨
          p.1 = "fineasy-data-v1")) ∧
      (onActivate cs).trace =
        Effect.clientsClaim ::
          ((cachesKeys cs).filter (fun n => decide (n ≠ "fineasy-v1" ∧
            n ≠ "fineasy-runtime-v1" ∧ n ≠ "fineasy-data-v1"))).map Effect.cacheDelete ∧
      (onActivate (onActivate cs).caches).caches = (onActivate cs).caches ∧
      (onActivate (onActivate cs).caches).trace = [Effect.clientsClaim] := by
  have hcur : ∀ n : String, currentName n =
      decide (n = "fineasy-v1" ∨ n = "fineasy-runtime-v1" ∨ n = "fineasy-data-v1") := by
    intro n
    simp [currentName, CACHE_NAME, RUNTIME_CACHE, DATA_CACHE, Bool.or_assoc]
  have hnot : ∀ n : String, (!currentName n) =
      decide (n ≠ "fineasy-v1" ∧ n ≠ "fineasy-runtime-v1" ∧ n ≠ "fineasy-data-v1") := by
    intro n
    rw [hcur n]
    simp
  simp only [onActivate_eq]
  refine ⟨?_, ?_, ?_, ?_⟩
  · exact List.filter_congr (fun p _ => hcur p.1)
  · congr 2
    exact List.filter_congr (fun n _ => hnot n)
  · simp [List.filter_filter]
  · have hnone : (cachesKeys (cs.filter (fun p => currentName p.1))).filter
        (fun n => !currentName n) = [] := by
      rw [List.filter_eq_nil_iff]
      intro n hn
      unfold cachesKeys at hn
      obtain ⟨p, hp, rfl⟩ := List.mem_map.mp hn
      simp [(List.mem_filter.mp hp).2]
    simp [hnone]

/-! ## Only ok responses are cached -/

theorem mem_cachesOpen (cs : CacheStorage) (name : String) (p : String × Cache)
    (hp : p ∈ cachesOpen cs name) : p ∈ cs ∨ p = (name, []) := by
  rcases cachesOpen_eq cs name with h | ⟨_, h⟩
  · rw [h] at hp
    exact Or.inl hp
  · rw [h] at hp
    simpa using hp

theorem mem_storagePut (cs : CacheStorage) (name : String) (key : Request) (r : Response)
    (p : String × Cache) (hp : p ∈ storagePut cs name key r) :
    p ∈ cs ∨ ∃ c, (name, c) ∈ cs ∧ p = (name, cachePut c key r) := by
  induction cs with
  | nil => simp [storagePut] at hp
  | cons q rest ih =>
    obtain ⟨n, c⟩ := q
    by_cases hn : n = name
    · simp only [storagePut, hn, if_true, List.mem_cons] at hp
      rcases hp with hp | hp
      · exact Or.inr ⟨c, by simp [hn], hp⟩
      · exact Or.inl (by simp [hp])
    · simp only [storagePut, hn, if_false, List.mem_cons] at hp
      rcases hp with hp | hp
      · exact Or.inl (by simp [hp])
      · rcases ih hp with h | ⟨d, hd, hpd⟩
        · exact Or.inl (by simp [h])
        · exact Or.inr ⟨d, by simp [hd], hpd⟩

theorem AllOk_cachePut (c : Cache) (key : Request) (r : Response) (hc : AllOk c)
    (hr : r.ok = true) : AllOk (cachePut c key r) := by
  intro e he
  unfold cachePut at he
  split at he
  · rcases List.mem_append.mp he with h | h
    · exact hc e (List.mem_filter.mp h).1
    · have : e = (key, r) := by simpa using h
      rw [this]
      exact hr
  · exact hc e he

theorem DynamicOk_cachesOpen (cs : CacheStorage) (name : String) (h : DynamicOk cs) :
    DynamicOk (cachesOpen cs name) := by
  intro p hp hname
  rcases mem_cachesOpen cs name p hp with hmem | heq
  · exact h p hmem hname
  · rw [heq]
    intro e he
    simp at he

theorem DynamicOk_storagePut (cs : CacheStorage) (name : String) (key : Request) (r : Response)
    (h : DynamicOk cs) (hr : r.ok = true) : DynamicOk (storagePut cs name key r) := by
  intro p hp hname
  rcases mem_storagePut cs name key r p hp with hmem | ⟨c, hc, heq⟩
  · exact h p hmem hname
  · rw [heq] at hname ⊢
    exact AllOk_cachePut c key r (h (name, c) hc hname) hr

theorem DynamicOk_networkFirst (env : Env) (cs : CacheStorage) (request : Request)
    (h : DynamicOk cs) : DynamicOk (networkFirstStrategy env cs request).caches := by
  cases hfetch : env.fetch request with
  | ok resp =>
    rw [networkFirst_of_ok env cs request resp hfetch]
    by_cases hok : resp.ok = true
    · simp only [hok, if_true]
      exact DynamicOk_storagePut _ _ _ _ (DynamicOk_cachesOpen cs _ h) hok
    · simp only [hok, if_false]
      exact DynamicOk_cachesOpen cs _ h
  | error e =>
    rw [networkFirst_of_error env cs request e hfetch]
    cases storageMatch cs DATA_CACHE request <;> exact DynamicOk_cachesOpen cs _ h

theorem DynamicOk_cacheFirst (env : Env) (cs : CacheStorage) (request : Request)
    (h : DynamicOk cs) : DynamicOk (cacheFirstStrategy env cs request).caches := by
  cases hmatch : storageMatch cs RUNTIME_CACHE request with
  | some cached =>
    rw [cacheFirst_of_hit env cs request cached hmatch]
    exact DynamicOk_cachesOpen cs _ h
  | none =>
    cases hfetch : env.fetch request with
    | ok resp =>
      rw [cacheFirst_of_miss_ok env cs request resp hmatch hfetch]
      by_cases hok : resp.ok = true
      · simp only [hok, if_true]
        exact DynamicOk_storagePut _ _ _ _ (DynamicOk_cachesOpen cs _ h) hok
      · simp only [hok, if_false]
        exact DynamicOk_cachesOpen cs _ h
    | error e =>
      rw [cacheFirst_of_miss_error env cs request e hmatch hfetch]
      split <;> exact DynamicOk_cachesOpen cs _ h

theorem onFetch_caches_navigation (env : Env) (cs : CacheStorage) (request : Request)
    (horigin : request.url.origin = env.origin) (hapi : apiMarked request = false)
    (hmode : request.mode = "navigate") : (onFetch env cs request).caches = cs := by
  rw [onFetch_navigation env cs request horigin hapi hmode]
  cases env.fetch request <;> rfl

theorem DynamicOk_onFetch (env : Env) (cs : CacheStorage) (request : Request)
    (h : DynamicOk cs) : DynamicOk (onFetch env cs request).caches := by
  by_cases horigin : request.url.origin = env.origin
  · cases hapi : apiMarked request with
    | true =>
      rw [onFetch_api env cs request horigin hapi]
      exact DynamicOk_networkFirst env cs request h
    | false =>
      by_cases hmode : request.mode = "navigate"
      · rw [onFetch_caches_navigation env cs request horigin hapi hmode]
        exact h
      · rw [onFetch_other env cs request horigin hapi hmode]
        exact DynamicOk_cacheFirst env cs request h
  · have : (onFetch env cs request).caches = cs := by simp [onFetch, horigin]
    rw [this]
    exact h

theorem DynamicOk_runFetches (events : List (Env × Request)) (cs : CacheStorage)
    (h : DynamicOk cs) : DynamicOk (runFetches events cs) := by
  induction events generalizing cs with
  | nil => exact h
  | cons ev rest ih =>
    obtain ⟨env, request⟩ := ev
    exact ih _ (DynamicOk_onFetch env cs request h)

theorem cacheFirst_trace_of_hit (env : Env) (cs : CacheStorage) (request : Request)
    (cached : Response) (hhit : storageMatch cs RUNTIME_CACHE request = some cached) :
    (cacheFirstStrategy env cs request).trace = [] := by
  rw [cacheFirst_of_hit env cs request cached hhit]

/-- C9: only ok responses are ever cached.  For every request and every network
response with `ok = false`: `networkFirstStrategy` returns the response and
`cacheFirstStrategy` returns it whenever it calls the network (it does not when
the runtime partition already holds an entry), and both leave the storage as it
was, up to the empty partition that `caches.open` creates when theirs did not
exist.  Hence, starting from runtime and data partitions holding only ok
responses, every entry of the runtime and data partitions after any sequence of
fetch events is an ok response. -/
theorem only_ok_responses_cached :
    (∀ (env : Env) (cs : CacheStorage) (request : Request) (resp : Response),
      env.fetch request = Except.ok resp → resp.ok = false →
        ((networkFirstStrategy env cs request).value = Except.ok (some resp) ∧
          ((networkFirstStrategy env cs request).caches = cs ∨
            (partition? cs DATA_CACHE = none ∧
              (networkFirstStrategy env cs request).caches = cs ++ [(DATA_CACHE, [])]))) ∧
        ((Effect.fetch request ∈ (cacheFirstStrategy env cs request).trace →
            (cacheFirstStrategy env cs request).value = Except.ok (some resp)) ∧
          ((cacheFirstStrategy env cs request).caches = cs ∨
            (partition? cs RUNTIME_CACHE = none ∧
              (cacheFirstStrategy env cs request).caches = cs ++ [(RUNTIME_CACHE, [])])))) ∧
    (∀ (events : List (Env × Request)) (cs : CacheStorage),
      DynamicOk cs → DynamicOk (runFetches events cs)) := by
  refine ⟨?_, DynamicOk_runFetches⟩
  intro env cs request resp hfetch hok
  refine ⟨?_, ?_⟩
  · rw [networkFirst_of_ok env cs request resp hfetch]
    refine ⟨rfl, ?_⟩
    simp only [hok, Bool.false_eq_true, if_false]
    exact cachesOpen_eq cs DATA_CACHE
  · cases hmatch : storageMatch cs RUNTIME_CACHE request with
    | some cached =>
      rw [cacheFirst_of_hit env cs request cached hmatch]
      exact ⟨fun hmem => by simp at hmem, cachesOpen_eq cs RUNTIME_CACHE⟩
    | none =>
      rw [cacheFirst_of_miss_ok env cs request resp hmatch hfetch]
      refine ⟨fun _ => rfl, ?_⟩
      simp only [hok, Bool.false_eq_true, if_false]
      exact cachesOpen_eq cs RUNTIME_CACHE

theorem only_ok_responses_cached_witness :
    ((answering notFound).fetch stylesRequest = Except.ok notFound ∧ notFound.ok = false ∧
      (networkFirstStrategy (answering notFound) afterVersionBump stylesRequest).value =
        Except.ok (some notFound) ∧
      (cacheFirstStrategy (answering notFound) afterVersionBump stylesRequest).caches =
        afterVersionBump) ∧
    (DynamicOk afterVersionBump ∧
      DynamicOk (runFetches
        [(answering notFound, stylesRequest), (answering accountsOk, accountsRequest),
          (offlineEnv, dashboardNavigation)] afterVersionBump)) := by
  have hstart : DynamicOk afterVersionBump := by
    intro p hp hname
    simp only [afterVersionBump, List.mem_cons, List.mem_singleton, List.not_mem_nil,
      or_false] at hp
    rcases hp with rfl | rfl | rfl | rfl | rfl
    · exact absurd hname (by decide)
    · exact absurd hname (by decide)
    · intro e he
      simp at he
    · exact absurd hname (by decide)
    · intro e he
      simp only [List.mem_singleton] at he
      rw [he]
      decide
  refine ⟨⟨rfl, by decide, ?_, ?_⟩, hstart, ?_⟩
  · exact ((only_ok_responses_cached.1 (answering notFound) afterVersionBump stylesRequest
      notFound rfl (by decide)).1).1
  · exact by decide
  · exact only_ok_responses_cached.2 _ afterVersionBump hstart

/-! ## Classification order of the fetch handler -/

theorem networkFirst_trace (env : Env) (cs : CacheStorage) (request : Request) :
    (networkFirstStrategy env cs request).trace = [Effect.fetch request] := by
  cases hfetch : env.fetch request with
  | ok resp => rw [networkFirst_of_ok env cs request resp hfetch]
  | error e =>
    rw [networkFirst_of_error env cs request e hfetch]
    cases storageMatch cs DATA_CACHE request <;> rfl

theorem cacheFirst_trace_cases (env : Env) (cs : CacheStorage) (request : Request) :
    (storageMatch cs RUNTIME_CACHE request ≠ none ∧
        (cacheFirstStrategy env cs request).trace = []) ∨
      (storageMatch cs RUNTIME_CACHE request = none ∧
        (cacheFirstStrategy env cs request).trace = [Effect.fetch request]) := by
  cases hmatch : storageMatch cs RUNTIME_CACHE request with
  | some cached =>
    exact Or.inl ⟨by simp, cacheFirst_trace_of_hit env cs request cached hmatch⟩
  | none => exact Or.inr ⟨rfl, cacheFirst_trace_of_miss env cs request hmatch⟩

theorem onFetch_trace_navigation (env : Env) (cs : CacheStorage) (request : Request)
    (horigin : request.url.origin = env.origin) (hapi : apiMarked request = false)
    (hmode : request.mode = "navigate") :
    (onFetch env cs request).trace = [Effect.fetch request] := by
  rw [onFetch_navigation env cs request horigin hapi hmode]
  cases env.fetch request <;> rfl

theorem cacheFirst_dispatched (env : Env) (cs : CacheStorage) (request r : Request)
    (hmem : Effect.cacheFirst r ∈ (onFetch env cs request).trace) :
    r = request ∧ request.url.origin = env.origin ∧ apiMarked request = false ∧
      request.mode ≠ "navigate" := by
  by_cases horigin : request.url.origin = env.origin
  · cases hapi : apiMarked request with
    | true =>
      rw [onFetch_api env cs request horigin hapi] at hmem
      simp [networkFirst_trace] at hmem
    | false =>
      by_cases hmode : request.mode = "navigate"
      · rw [onFetch_trace_navigation env cs request horigin hapi hmode] at hmem
        simp at hmem
      · rw [onFetch_other env cs request horigin hapi hmode] at hmem
        rcases cacheFirst_trace_cases env cs request with ⟨_, ht⟩ | ⟨_, ht⟩
        · simp only [ht, List.mem_singleton, Effect.cacheFirst.injEq] at hmem
          exact ⟨hmem, horigin, rfl, hmode⟩
        · simp only [ht, List.mem_cons, Effect.cacheFirst.injEq, List.mem_singleton,
            reduceCtorEq, List.not_mem_nil, or_false] at hmem
          exact ⟨hmem, horigin, rfl, hmode⟩
  · have : (onFetch env cs request).trace = [] := by simp [onFetch, horigin]
    rw [this] at hmem
    simp at hmem

theorem networkFirst_dispatched (env : Env) (cs : CacheStorage) (request r : Request)
    (hmem : Effect.networkFirst r ∈ (onFetch env cs request).trace) :
    r = request ∧ request.url.origin = env.origin ∧ apiMarked request = true := by
  by_cases horigin : request.url.origin = env.origin
  · cases hapi : apiMarked request with
    | true =>
      rw [onFetch_api env cs request horigin hapi] at hmem
      simp only [networkFirst_trace, List.mem_cons, Effect.networkFirst.injEq,
        List.mem_singleton, reduceCtorEq, List.not_mem_nil, or_false] at hmem
      exact ⟨hmem, horigin, rfl⟩
    | false =>
      by_cases hmode : request.mode = "navigate"
      · rw [onFetch_trace_navigation env cs request horigin hapi hmode] at hmem
        simp at hmem
      · rw [onFetch_other env cs request horigin hapi hmode] at hmem
        rcases cacheFirst_trace_cases env cs request with ⟨_, ht⟩ | ⟨_, ht⟩ <;>
          simp [ht] at hmem
  · have : (onFetch env cs request).trace = [] := by simp [onFetch, horigin]
    rw [this] at hmem
    simp at hmem

/-- C10: the fetch handler tests cross-origin, API marker, navigation, other in
that order, so every request takes exactly one route: passthrough (nothing is
called), network-first, the navigation fallback (one network call, then
`caches.match('/offline.html')` on failure), or cache-first.  A strategy is
invoked only with the handled request and only on its own route; in particular
`cacheFirstStrategy` is never invoked with a request whose mode is
`'navigate'`, and every network failure inside a cache-first run dispatched by
the handler is re-thrown: the handler responds with a rejection carrying that
error. -/
theorem onFetch_classification (env : Env) (cs : CacheStorage) (request : Request) :
    (request.url.origin ≠ env.origin →
      (onFetch env cs request).value = FetchOutcome.passthrough ∧
        (onFetch env cs request).trace = []) ∧
    (request.url.origin = env.origin → apiMarked request = true →
      (onFetch env cs request).value =
          FetchOutcome.respondWith (networkFirstStrategy env cs request).value ∧
        (onFetch env cs request).trace =
          Effect.networkFirst request :: (networkFirstStrategy env cs request).trace) ∧
    (request.url.origin = env.origin → apiMarked request = false →
      request.mode = "navigate" →
        (onFetch env cs request).trace = [Effect.fetch request] ∧
          (∀ resp, env.fetch request = Except.ok resp →
            (onFetch env cs request).value =
              FetchOutcome.respondWith (Except.ok (some resp))) ∧
          (∀ e, env.fetch request = Except.error e →
            (onFetch env cs request).value =
              FetchOutcome.respondWith (Except.ok (cachesMatch cs (offlineKey env))))) ∧
    (request.url.origin = env.origin → apiMarked request = false →
      request.mode ≠ "navigate" →
        (onFetch env cs request).value =
            FetchOutcome.respondWith (cacheFirstStrategy env cs request).value ∧
          (onFetch env cs request).trace =
            Effect.cacheFirst request :: (cacheFirstStrategy env cs request).trace) ∧
    (∀ r, Effect.networkFirst r ∈ (onFetch env cs request).trace →
      r = request ∧ request.url.origin = env.origin ∧ apiMarked request = true) ∧
    (∀ r, Effect.cacheFirst r ∈ (onFetch env cs request).trace →
      r = request ∧ request.url.origin = env.origin ∧ apiMarked request = false ∧
        r.mode ≠ "navigate") ∧
    (∀ r e, Effect.cacheFirst r ∈ (onFetch env cs request).trace →
      Effect.fetch r ∈ (onFetch env cs request).trace →
      env.fetch r = Except.error e →
        (onFetch env cs request).value = FetchOutcome.respondWith (Except.error e)) := by
  refine ⟨?_, ?_, ?_, ?_, ?_, ?_, ?_⟩
  · intro horigin
    simp [onFetch, horigin]
  · intro horigin hapi
    rw [onFetch_api env cs request horigin hapi]
    exact ⟨rfl, rfl⟩
  · intro horigin hapi hmode
    refine ⟨onFetch_trace_navigation env cs request horigin hapi hmode, ?_, ?_⟩
    · intro resp hfetch
      rw [onFetch_navigation env cs request horigin hapi hmode, hfetch]
    · intro e hfail
      rw [onFetch_navigation env cs request horigin hapi hmode, hfail]
  · intro horigin hapi hmode
    rw [onFetch_other env cs request horigin hapi hmode]
    exact ⟨rfl, rfl⟩
  · exact fun r hmem => networkFirst_dispatched env cs request r hmem
  · intro r hmem
    obtain ⟨hr, horigin, hapi, hmode⟩ := cacheFirst_dispatched env cs request r hmem
    exact ⟨hr, horigin, hapi, by rw [hr]; exact hmode⟩
  · intro r e hmem hfetched hfail
    obtain ⟨hr, horigin, hapi, hmode⟩ := cacheFirst_dispatched env cs request r hmem
    subst hr
    rw [onFetch_other env cs r horigin hapi hmode] at hfetched ⊢
    rcases cacheFirst_trace_cases env cs r with ⟨_, ht⟩ | ⟨hmiss, _⟩
    · simp [ht] at hfetched
    · rw [cacheFirst_of_miss_error env cs r e hmiss hfail, if_neg hmode]

theorem onFetch_classification_witness :
    Effect.cacheFirst stylesRequest ∈ (onFetch offlineEnv precached stylesRequest).trace ∧
      Effect.fetch stylesRequest ∈ (onFetch offlineEnv precached stylesRequest).trace ∧
      offlineEnv.fetch stylesRequest = Except.error networkDown ∧
      stylesRequest.mode ≠ "navigate" ∧
      (onFetch offlineEnv precached stylesRequest).value =
        FetchOutcome.respondWith (Except.error networkDown) :=
  ⟨by decide, by decide, rfl,
    ((onFetch_classification offlineEnv precached stylesRequest).2.2.2.2.2.1 stylesRequest
      (by decide)).2.2.2,
    (onFetch_classification offlineEnv precached stylesRequest).2.2.2.2.2.2 stylesRequest
      networkDown (by decide) (by decide) rfl⟩

end Fineasy
